import Mathlib

/-!
Shallow embedding of `src/libuwp.h`.

The file is a C declaration header: one `#include <stdlib.h>` line followed by
seven single-line function prototypes, each marked `__declspec(dllimport)`.
We embed the header as a list of items, one item per source line, over a small
grammar of the C types that can occur in such declarations.
-/

/-- Grammar of C types as they can appear in a declaration header:
the built-in types `void`, `char`, `int`, the `const` qualifier, pointers,
and named (typedef) types such as those a header like `stdlib.h` provides. -/
inductive CType where
  | void : CType
  | char : CType
  | int : CType
  | const : CType → CType
  | ptr : CType → CType
  | named : String → CType
deriving DecidableEq, Repr

/-- Formal parameter of a C function declaration: an identifier and its type. -/
structure Param where
  pname : String
  ptype : CType
deriving DecidableEq, Repr

/-- Function declaration: linkage marker, return type, symbol name, parameter
list, and whether a function body is attached (a prototype has none). -/
structure FunDecl where
  dllimport : Bool
  ret : CType
  fname : String
  params : List Param
  hasBody : Bool
deriving DecidableEq, Repr

/-- Top-level item of a C header: an include directive, a function
declaration, or a global data-object declaration. -/
inductive HeaderItem where
  | inc : String → HeaderItem
  | fn : FunDecl → HeaderItem
  | obj : String → CType → HeaderItem
deriving DecidableEq, Repr

/-- `src/libuwp.h`, one list entry per source line, in order. Each function
entry records, in order: the `dllimport` marker, the `void` return type, the
symbol name, the parameter list, and the absence of a body. -/
def libuwp : List HeaderItem :=
  [ HeaderItem.inc ("stdlib.h"),
    HeaderItem.fn ⟨true, CType.void, "uwp_GetBundlePath",
      [⟨"buffer", CType.ptr CType.char⟩], false⟩,
    HeaderItem.fn ⟨true, CType.void, "uwp_GetBundleFilePath",
      [⟨"buffer", CType.ptr CType.char⟩,
       ⟨"filename", CType.ptr (CType.const CType.char)⟩], false⟩,
    HeaderItem.fn ⟨true, CType.void, "uwp_GetScreenSize",
      [⟨"x", CType.ptr CType.int⟩, ⟨"y", CType.ptr CType.int⟩], false⟩,
    HeaderItem.fn ⟨true, CType.void, "uwp_GetTarget",
      [⟨"buffer", CType.ptr CType.char⟩], false⟩,
    HeaderItem.fn ⟨true, CType.void, "uwp_LogMessage",
      [⟨"buffer", CType.ptr CType.char⟩], false⟩,
    HeaderItem.fn ⟨true, CType.void, "uwp_PatchFolder",
      [⟨"folder", CType.ptr CType.char⟩], false⟩,
    HeaderItem.fn ⟨true, CType.void, "uwp_PickAFolder",
      [⟨"buffer", CType.ptr CType.char⟩], false⟩ ]

/-- The function declarations of the header, in source order. -/
def decls : List FunDecl :=
  libuwp.filterMap (fun i => match i with
    | HeaderItem.fn d => some d
    | _ => none)

/-- Whether a header item is a global data-object declaration. -/
def isDataObject : HeaderItem → Bool
  | HeaderItem.obj _ _ => true
  | _ => false

/-- Whether a header item is a function declaration. -/
def isFunItem : HeaderItem → Bool
  | HeaderItem.fn _ => true
  | _ => false

/-- Whether a type mentions the `const` qualifier anywhere. -/
def mentionsConst : CType → Bool
  | CType.const _ => true
  | CType.ptr t => mentionsConst t
  | _ => false

/-- Whether a type mentions a named (typedef) type anywhere, i.e. a type not
expressible with the built-in types alone. -/
def mentionsNamed : CType → Bool
  | CType.named _ => true
  | CType.const t => mentionsNamed t
  | CType.ptr t => mentionsNamed t
  | _ => false

/-- All parameters of all declarations, tagged with their declaration's
symbol name. -/
def allParams : List (String × Param) :=
  decls.flatMap (fun d => d.params.map (fun p => (d.fname, p)))

/-- Whether a declaration has both a const-qualified pointer parameter and a
non-const pointer parameter, i.e. its parameter types distinguish an input
from an output direction. -/
def mixedConstness (d : FunDecl) : Bool :=
  d.params.any (fun p => mentionsConst p.ptype) &&
    d.params.any (fun p => !(mentionsConst p.ptype))

/-- Symbol column of the spec's symbol table, row by row. -/
def specSymbolTable : List String :=
  ["GetBundlePath", "GetBundleFilePath", "GetScreenSize", "GetTarget",
   "LogMessage", "PatchFolder", "PickAFolder"]

/-- C1: the header declares exactly seven functions — bundle path lookup,
bundle file path lookup, screen size query, target identification, logging,
folder patch, folder picker — each exactly once, and nothing else is
declared. -/
theorem C1_exactly_seven_declarations :
    decls.map FunDecl.fname =
      ["uwp_GetBundlePath", "uwp_GetBundleFilePath", "uwp_GetScreenSize",
       "uwp_GetTarget", "uwp_LogMessage", "uwp_PatchFolder",
       "uwp_PickAFolder"] ∧
    (decls.map FunDecl.fname).Nodup ∧
    libuwp.all (fun i => isFunItem i || i == HeaderItem.inc ("stdlib.h")) =
      true := by
  refine ⟨rfl, by decide, by decide⟩

/-- C2 counterexample: the claim that the declared symbols are named exactly
as in the spec's symbol table fails — no declaration in the header bears any
of the table's names; in particular none is named GetBundlePath. -/
theorem C2_counterexample_no_unprefixed_symbol :
    specSymbolTable.all
      (fun s => !((decls.map FunDecl.fname).contains s)) = true := by
  decide

/-- C2 amended: every row of the spec's symbol table corresponds, in order,
to a declaration whose symbol name is the row's name prefixed with `uwp_`. -/
theorem C2_symbols_are_table_rows_with_uwp_prefixed :
    decls.map FunDecl.fname = specSymbolTable.map (fun s => "uwp_" ++ s) := by
  rfl

/-- C3: every one of the seven declarations has return type `void`, so no
declared interface carries a return code or any other error channel. -/
theorem C3_all_return_void :
    decls.all (fun d => d.ret == CType.void) = true ∧ decls.length = 7 := by
  exact ⟨rfl, rfl⟩

/-- C4: the screen size query takes exactly two parameters, both of type
pointer-to-int, and no other declaration in the interface has any
pointer-to-int parameter. -/
theorem C4_screen_size_two_int_pointers :
    (decls.filter (fun d => d.fname == "uwp_GetScreenSize")).map
        FunDecl.params =
      [[⟨"x", CType.ptr CType.int⟩, ⟨"y", CType.ptr CType.int⟩]] ∧
    decls.all (fun d => d.fname == "uwp_GetScreenSize" ||
      d.params.all (fun p => !(p.ptype == CType.ptr CType.int))) = true := by
  exact ⟨rfl, rfl⟩

/-- C5: every parameter of every declaration is a `char*`, a `const char*`,
or an `int*` — no by-value parameter and no other type — and the header
declares no global data object. -/
theorem C5_params_buffers_or_int_pointers :
    allParams.all (fun q => q.2.ptype == CType.ptr CType.char ||
      q.2.ptype == CType.ptr (CType.const CType.char) ||
      q.2.ptype == CType.ptr CType.int) = true ∧
    libuwp.all (fun i => !(isDataObject i)) = true := by
  exact ⟨rfl, rfl⟩

/-- C6: every declaration carries the `dllimport` linkage marker and none has
a function body — the artifact holds function signatures only. -/
theorem C6_all_dllimport_prototypes :
    decls.all (fun d => d.dllimport && !d.hasBody) = true ∧
    libuwp.all (fun i => isFunItem i || !(isDataObject i)) = true := by
  exact ⟨rfl, rfl⟩

/-- C7: the bundle-file-path lookup takes an output character buffer plus an
explicit input file name parameter, and it is the only declaration whose
parameters mix a const-qualified (input) pointer with a non-const (output)
pointer. -/
theorem C7_bundle_file_path_mixed_directions :
    (decls.filter (fun d => d.fname == "uwp_GetBundleFilePath")).map
        FunDecl.params =
      [[⟨"buffer", CType.ptr CType.char⟩,
        ⟨"filename", CType.ptr (CType.const CType.char)⟩]] ∧
    decls.filter mixedConstness =
      decls.filter (fun d => d.fname == "uwp_GetBundleFilePath") := by
  exact ⟨rfl, rfl⟩

/-- C8: the header is exactly 8 lines — one include directive first, then
seven function declarations, one per line, and nothing else. -/
theorem C8_eight_lines_include_then_decls :
    libuwp.length = 8 ∧
    libuwp.head? = some (HeaderItem.inc ("stdlib.h")) ∧
    libuwp.tail.all isFunItem = true ∧ libuwp.tail.length = 7 := by
  exact ⟨rfl, rfl, rfl, rfl⟩

/-- C9: the filename parameter of the bundle-file-path lookup is the only
const-qualified parameter in the entire header; every other pointer
parameter, including the logging message and the folder patch argument, is a
non-const pointer. -/
theorem C9_filename_only_const_parameter :
    allParams.filter (fun q => mentionsConst q.2.ptype) =
      [("uwp_GetBundleFilePath",
        ⟨"filename", CType.ptr (CType.const CType.char)⟩)] := by
  rfl

/-- C10: the header's only non-declaration content is the inclusion of
`stdlib.h`, and no declaration uses a named type from it — every return and
parameter type is built from the built-in types alone. -/
theorem C10_stdlib_included_but_unused :
    libuwp.filterMap (fun i => match i with
        | HeaderItem.inc p => some p
        | _ => none) = ["stdlib.h"] ∧
    decls.all (fun d => !(mentionsNamed d.ret) &&
      d.params.all (fun p => !(mentionsNamed p.ptype))) = true := by
  exact ⟨rfl, rfl⟩
